import Mathlib

/-!
Verification of the coordinated-spam detector (`run.py` / `no_scams/utils.py`).

The embedding models:
  * the Fingerprinter (`Message.from_discord_message`, `extract_image_hash`,
    the attachment allow-list),
  * the History Store (`MessageStore` with its Python `defaultdict` backing:
    indexing a missing key materialises it with an empty list),
  * the Classifier (`MessageStore.is_scam` and its helper predicates
    `all_same`, `all_different`, `contains_url`),
  * the event handler `on_message` (remediation dispatch: best-effort
    deletions, try/except timeout, then window clearing).

Perceptual image hashing (PIL + imagehash) is external; the embedding carries
attachment bytes as `List Nat` and parametrises over the hash function
`hashFn : List Nat → Nat`.  A failing `attachment.read()` network fetch is
modelled as the attachment carrying `none` for its bytes; the Python
exception it raises is modelled with `Except`.
-/

namespace NoScams

/-- `MAX_MESSAGE_NUM = 3` in run.py. -/
def MAX_MESSAGE_NUM : Nat := 3

/-- A fingerprinted message (dataclass `Message` of run.py):
`frozenset[ImageHash]` becomes `Finset Nat`. -/
structure Message where
  id : Nat
  channel_id : Nat
  content : String
  image_hashes : Finset Nat
deriving DecidableEq

/-- A Discord attachment as the fingerprinter sees it: declared content type,
filename, and the result of `attachment.read()` (`none` models a failed
network fetch, which in Python raises). -/
structure Attachment where
  content_type : Option String
  filename : String
  bytes : Option (List Nat)
deriving DecidableEq

/-- The fields of `discord.Message` that the program reads. -/
structure DiscordMessage where
  id : Nat
  channel_id : Nat
  guild : Option Nat
  author_id : Nat
  author_bot : Bool
  author_is_member : Bool
  webhook_id : Option Nat
  content : String
  attachments : List Attachment
deriving DecidableEq

/-- `IMAGE_EXTENSIONS` of run.py. -/
def IMAGE_EXTENSIONS : List String :=
  [".png", ".jpg", ".jpeg", ".gif", ".bmp", ".webp"]

/-- Tests whether the first list is an initial segment of the second. -/
def listStartsWith : List Char → List Char → Bool
  | [], _ => true
  | _ :: _, [] => false
  | p :: ps, c :: cs => decide (p = c) && listStartsWith ps cs

/-- The filter in `Message.from_discord_message`: content type present and
starting with `image/`, and lower-cased filename ending in an allow-listed
extension (`str.lower()` is modelled per character with `Char.toLower`). -/
def qualifies (a : Attachment) : Bool :=
  match a.content_type with
  | none => false
  | some ct =>
      listStartsWith "image/".data ct.data
        && IMAGE_EXTENSIONS.any (fun ext =>
            listStartsWith ext.data.reverse
              ((a.filename.data.map Char.toLower).reverse))

/-- The attachment loop of `Message.from_discord_message`: walk the
attachments in order, skip non-qualifying ones, and for each qualifying one
perform `extract_image_hash` (read the bytes and hash them).  A failed fetch
raises, aborting the loop: modelled with `Except Unit`. -/
def collectHashes (hashFn : List Nat → Nat) : List Attachment → Except Unit (List Nat)
  | [] => Except.ok []
  | a :: rest =>
      if qualifies a then
        match a.bytes with
        | none => Except.error ()
        | some bs =>
            match collectHashes hashFn rest with
            | Except.error e => Except.error e
            | Except.ok hs => Except.ok (hashFn bs :: hs)
      else collectHashes hashFn rest

/-- `Message.from_discord_message`: fingerprint a raw message.  The hash list
is collapsed into a `frozenset` (`List.toFinset`).  An attachment fetch
failure propagates (`Except.error`). -/
def from_discord_message (hashFn : List Nat → Nat) (m : DiscordMessage) :
    Except Unit Message :=
  match collectHashes hashFn m.attachments with
  | Except.error e => Except.error e
  | Except.ok hs =>
      Except.ok
        { id := m.id
          channel_id := m.channel_id
          content := m.content
          image_hashes := hs.toFinset }

/-- Strips a literal pattern from the front of a character list, returning
the remainder on success. -/
def stripStart : List Char → List Char → Option (List Char)
  | [], cs => some cs
  | _ :: _, [] => none
  | p :: ps, c :: cs => if p = c then stripStart ps cs else none

/-- Does the regex match at the start of this character list? -/
def urlAt (l : List Char) : Bool :=
  match stripStart "http://".data l with
  | some (c :: _) => !c.isWhitespace
  | some [] => false
  | none =>
      match stripStart "https://".data l with
      | some (c :: _) => !c.isWhitespace
      | _ => false

/-- `MessageStore.contains_url`: `re.search(r"https?://\S+", content)`.
The regex matches at a position when the suffix there starts with `http://`
or `https://` followed by at least one non-whitespace character; the search
succeeds when some position matches. -/
def contains_url (content : String) : Bool :=
  (List.range content.data.length).any (fun i => urlAt (content.data.drop i))

/-- `MessageStore.all_same`, parametrised by Python truthiness of the element
type (`falsy x` models `not x`). -/
def all_same {α : Type} [DecidableEq α] (falsy : α → Bool) : List α → Bool
  | [] => false
  | [_] => false
  | x :: y :: rest =>
      if falsy x then false
      else (x :: y :: rest).all (fun z => decide (z = x))

/-- `MessageStore.all_different`: `len(set(lst)) == len(lst)` with the
short-circuit for lists of length ≤ 1. -/
def all_different {α : Type} [DecidableEq α] : List α → Bool
  | [] => true
  | [_] => true
  | l => decide (l.dedup.length = l.length)

/-- Python truthiness of a string: empty is falsy. -/
def strFalsy (s : String) : Bool := s.isEmpty

/-- Python truthiness of a frozenset: empty is falsy. -/
def setFalsy (s : Finset Nat) : Bool := decide (s = ∅)

/-- The `MessageStore` state.  `data` is the total view of the backing
`defaultdict` (`[]` for keys never materialised); `keys` is the set of keys
actually present in the dict.  A `defaultdict` lookup of an absent key
inserts the default `[]`. -/
structure Store where
  data : Nat × Nat → List Message
  keys : Finset (Nat × Nat)

/-- The store created by `MessageStore.__init__`: an empty defaultdict. -/
def Store.empty : Store :=
  { data := fun _ => [], keys := ∅ }

/-- `self._messages[k]` on a Python `defaultdict(list)`: return the stored
list when the key is present, otherwise insert (materialise) `[]` and
return it. -/
def defaultGet (s : Store) (k : Nat × Nat) : List Message × Store :=
  if k ∈ s.keys then (s.data k, s)
  else ([], { data := Function.update s.data k [], keys := insert k s.keys })

/-- `MessageStore.remove_message`: pop the oldest entry when the window
exceeds `MAX_MESSAGE_NUM`. -/
def removeMessage (s : Store) (g a : Nat) : Store :=
  let p := defaultGet s (g, a)
  if MAX_MESSAGE_NUM < p.1.length then
    { p.2 with data := Function.update p.2.data (g, a) p.1.tail }
  else p.2

/-- `MessageStore.add_message`: for guild messages, fingerprint and append,
then trim.  Python evaluates `self._messages[key].append` (materialising the
key) before awaiting the fingerprint, so a fetch failure leaves the key
materialised but nothing appended; the exception propagates
(`Except.error` carries the store state at that point). -/
def addMessage (hashFn : List Nat → Nat) (s : Store) (m : DiscordMessage) :
    Except Store Store :=
  match m.guild with
  | none => Except.ok s
  | some g =>
      let k := (g, m.author_id)
      let p := defaultGet s k
      match from_discord_message hashFn m with
      | Except.error _ => Except.error p.2
      | Except.ok fm =>
          let s2 : Store :=
            { p.2 with data := Function.update p.2.data k (p.1 ++ [fm]) }
          Except.ok (removeMessage s2 g m.author_id)

/-- `MessageStore.clear_messages`: `self._messages[key].clear()` — the
defaultdict lookup materialises the key, then the list is emptied in place. -/
def clearMessages (s : Store) (g a : Nat) : Store :=
  let p := defaultGet s (g, a)
  { p.2 with data := Function.update p.2.data (g, a) [] }

/-- `MessageStore.get_scam_messages`: `[]` for DMs, otherwise the defaultdict
lookup for (guild id, author id), returning the window and the possibly
materialised store. -/
def getScamMessages (s : Store) (m : DiscordMessage) : List Message × Store :=
  match m.guild with
  | none => ([], s)
  | some g => defaultGet s (g, m.author_id)

/-- `MessageStore.is_scam`: below `MAX_MESSAGE_NUM` messages, never spam;
otherwise `different_channels and ((all_contain_url and same_content) or
same_images)`.  Returns the decision together with the store state after the
defaultdict lookup. -/
def isScam (s : Store) (m : DiscordMessage) : Bool × Store :=
  let p := getScamMessages s m
  if p.1.length < MAX_MESSAGE_NUM then (false, p.2)
  else
    let same_content := all_same strFalsy (p.1.map Message.content)
    let different_channels := all_different (p.1.map Message.channel_id)
    let all_contain_url := p.1.all (fun msg => contains_url msg.content)
    let same_images := all_same setFalsy (p.1.map Message.image_hashes)
    (different_channels && ((all_contain_url && same_content) || same_images), p.2)

/-- The observable window for a key: the stored list when the key is present
in the dict, otherwise empty (what any lookup would return). -/
def Store.view (s : Store) (k : Nat × Nat) : List Message :=
  if k ∈ s.keys then s.data k else []

/-- Outcome of one iteration of the deletion loop (`NoScamBot.delete_message`
on a stored `Message`).  Channel resolution — `bot.get_channel(...) or await
bot.fetch_channel(...)` — happens before the `contextlib.suppress` block, so
a `NotFound`/`Forbidden` raised by `fetch_channel` is uncaught and aborts
`on_message`; forum/category/private channels cause an early return; only
the `message.delete()` call itself is wrapped in
`contextlib.suppress(NotFound, Forbidden)`. -/
inductive DeleteOutcome
  | resolveFailed
  | skippedChannelKind
  | deleted
  | deleteSuppressed
deriving DecidableEq

/-- Outcome of `message.author.timeout(...)`: success, or a
`NotFound`/`Forbidden` caught by the surrounding `try/except`. -/
inductive TimeoutOutcome
  | success
  | caught
deriving DecidableEq

/-- Outcome of the notification step that runs after a successful timeout:
the message was sent, or the resolved override channel had a non-sendable
kind and the send was skipped, or the channel fetch / `send(...)` call
raised `NotFound`/`Forbidden` — which nothing catches, aborting
`on_message`. -/
inductive NotifyOutcome
  | sent
  | skippedKind
  | failed
deriving DecidableEq

/-- The `on_message` event handler.  Bot / DM / webhook messages are skipped.
Otherwise the message is added; on a spam classification the handler walks
the window issuing deletions — an uncaught channel-resolution failure aborts
the handler — then, when the author is a `Member`, times them out inside
`try/except` (on success a notification is sent, and an uncaught fetch/send
failure aborts the handler), and only then clears the author's window.
Deletions, the timeout and the notification never mutate the store, so
`Except.error` carries the store state, with the window untouched, at the
uncaught exception.  A fingerprinting fetch failure inside `add_message`
also propagates. -/
def onMessage (hashFn : List Nat → Nat) (s : Store) (m : DiscordMessage)
    (deleteOutcomes : Nat → DeleteOutcome) (timeoutRes : TimeoutOutcome)
    (notifyRes : NotifyOutcome) : Except Store Store :=
  if m.author_bot || m.guild.isNone || m.webhook_id.isSome then Except.ok s
  else
    match m.guild with
    | none => Except.ok s
    | some g =>
        match addMessage hashFn s m with
        | Except.error s1 => Except.error s1
        | Except.ok s1 =>
            let p := isScam s1 m
            if p.1 then
              let q := getScamMessages p.2 m
              if (List.range q.1.length).any
                  (fun i => decide (deleteOutcomes i = DeleteOutcome.resolveFailed)) then
                Except.error q.2
              else if m.author_is_member then
                match timeoutRes with
                | TimeoutOutcome.caught =>
                    Except.ok (clearMessages q.2 g m.author_id)
                | TimeoutOutcome.success =>
                    match notifyRes with
                    | NotifyOutcome.failed => Except.error q.2
                    | NotifyOutcome.sent =>
                        Except.ok (clearMessages q.2 g m.author_id)
                    | NotifyOutcome.skippedKind =>
                        Except.ok (clearMessages q.2 g m.author_id)
              else Except.ok (clearMessages q.2 g m.author_id)
            else Except.ok p.2

/-- Stores reachable from `MessageStore.__init__` through the public
operations (including the defaultdict materialisation performed by reads). -/
inductive Reachable : Store → Prop
  | init : Reachable Store.empty
  | addOk (hashFn s m s') : Reachable s →
      addMessage hashFn s m = Except.ok s' → Reachable s'
  | addErr (hashFn s m s') : Reachable s →
      addMessage hashFn s m = Except.error s' → Reachable s'
  | clear (s g a) : Reachable s → Reachable (clearMessages s g a)
  | reads (s m) : Reachable s → Reachable (getScamMessages s m).2
  | classify (s m) : Reachable s → Reachable (isScam s m).2

/-- Modelled from the spec, §4.3 rule 1: all messages have pairwise-identical
content and the shared content is non-empty. -/
def same_content_spec (msgs : List Message) : Bool :=
  decide ((∀ m1 ∈ msgs, ∀ m2 ∈ msgs, m1.content = m2.content)
    ∧ ∀ m ∈ msgs, m.content ≠ "")

/-- Modelled from the spec, §4.3 rule 2: pairwise-distinct channel ids. -/
def different_channels_spec (msgs : List Message) : Bool :=
  decide (msgs.map Message.channel_id).Nodup

/-- Modelled from the spec, §4.3 rule 3: every message's content contains a
URL-shaped substring. -/
def all_contain_url_spec (msgs : List Message) : Bool :=
  msgs.all (fun m => contains_url m.content)

/-- Modelled from the spec, §4.3 rule 4: pairwise-identical, non-empty
image-hash sets. -/
def same_images_spec (msgs : List Message) : Bool :=
  decide ((∀ m1 ∈ msgs, ∀ m2 ∈ msgs, m1.image_hashes = m2.image_hashes)
    ∧ ∀ m ∈ msgs, m.image_hashes ≠ ∅)

/-! ### Concrete inputs exercised by witnesses and counterexamples -/

/-- A constant hash function for concrete runs (hash values are irrelevant
to the exercised properties). -/
def zeroHash : List Nat → Nat := fun _ => 0

def c1FailAttachment : Attachment :=
  { content_type := some "image/png", filename := "scam.png", bytes := none }

def c1OkAttachment : Attachment :=
  { content_type := some "image/png", filename := "cat.png", bytes := some [1, 2, 3] }

/-- A message with one fetchable and one unfetchable qualifying attachment. -/
def c1Event : DiscordMessage :=
  { id := 1, channel_id := 2, guild := some 3, author_id := 4,
    author_bot := false, author_is_member := true, webhook_id := none,
    content := "look http://x.y", attachments := [c1OkAttachment, c1FailAttachment] }

def c1OkEvent : DiscordMessage :=
  { c1Event with attachments := [c1OkAttachment] }

def c2Msg1 : Message :=
  { id := 1, channel_id := 10, content := "go http://a.b", image_hashes := ∅ }

def c2Msg2 : Message :=
  { id := 2, channel_id := 11, content := "go http://a.b", image_hashes := ∅ }

def c2Msg3 : Message :=
  { id := 3, channel_id := 12, content := "go http://a.b", image_hashes := ∅ }

def c2Store : Store :=
  { data := Function.update (fun _ => []) (1, 7) [c2Msg1, c2Msg2, c2Msg3],
    keys := {(1, 7)} }

def c2Event : DiscordMessage :=
  { id := 3, channel_id := 12, guild := some 1, author_id := 7,
    author_bot := false, author_is_member := true, webhook_id := none,
    content := "go http://a.b", attachments := [] }

def c3Msg1 : Message :=
  { id := 1, channel_id := 10, content := "a", image_hashes := ∅ }

def c3Msg2 : Message :=
  { id := 2, channel_id := 11, content := "b", image_hashes := ∅ }

def c3Msg3 : Message :=
  { id := 3, channel_id := 12, content := "c", image_hashes := ∅ }

def c3Store : Store :=
  { data := Function.update (fun _ => []) (1, 7) [c3Msg1, c3Msg2, c3Msg3],
    keys := {(1, 7)} }

def c3Event : DiscordMessage :=
  { id := 4, channel_id := 13, guild := some 1, author_id := 7,
    author_bot := false, author_is_member := true, webhook_id := none,
    content := "d", attachments := [] }

def c3New : Message :=
  { id := 4, channel_id := 13, content := "d", image_hashes := List.toFinset [] }

def c4Event : DiscordMessage :=
  { id := 1, channel_id := 2, guild := some 3, author_id := 4,
    author_bot := false, author_is_member := true, webhook_id := none,
    content := "hi", attachments := [] }

def c5Msg1 : Message :=
  { id := 1, channel_id := 10, content := "go http://a.b", image_hashes := ∅ }

def c5Msg2 : Message :=
  { id := 2, channel_id := 11, content := "go http://a.b", image_hashes := ∅ }

def c5Store : Store :=
  { data := Function.update (fun _ => []) (1, 7) [c5Msg1, c5Msg2],
    keys := {(1, 7)} }

def c5Event : DiscordMessage :=
  { id := 3, channel_id := 12, guild := some 1, author_id := 7,
    author_bot := false, author_is_member := true, webhook_id := none,
    content := "go http://a.b", attachments := [] }

def c5New : Message :=
  { id := 3, channel_id := 12, content := "go http://a.b",
    image_hashes := List.toFinset [] }

/-- The store after `add_message` on `c5Store`/`c5Event` (window now full). -/
def c5Mid : Store :=
  { data := Function.update
      (Function.update (fun _ => []) (1, 7) [c5Msg1, c5Msg2]) (1, 7)
      [c5Msg1, c5Msg2, c5New],
    keys := {(1, 7)} }

def c5Next : DiscordMessage :=
  { id := 4, channel_id := 13, guild := some 1, author_id := 7,
    author_bot := false, author_is_member := true, webhook_id := none,
    content := "hello", attachments := [] }

def c5NextFp : Message :=
  { id := 4, channel_id := 13, content := "hello", image_hashes := List.toFinset [] }

def c6Event : DiscordMessage :=
  { id := 1, channel_id := 2, guild := some 1, author_id := 1,
    author_bot := false, author_is_member := true, webhook_id := none,
    content := "", attachments := [] }

/-- A store in which `c6Event`'s key is already materialised. -/
def c6Store : Store :=
  { data := Function.update (fun _ => []) (1, 1) [], keys := {(1, 1)} }

def c9Event : DiscordMessage :=
  { id := 1, channel_id := 2, guild := some 1, author_id := 7,
    author_bot := false, author_is_member := true, webhook_id := none,
    content := "m", attachments := [] }

def c9New : Message :=
  { id := 1, channel_id := 2, content := "m", image_hashes := List.toFinset [] }

/-- The store after `add_message` on the empty store and `c9Event`. -/
def c9After : Store :=
  { data := Function.update (Function.update (fun _ => []) (1, 7) []) (1, 7) [c9New],
    keys := insert (1, 7) ∅ }

def c9BadAttachment : Attachment :=
  { content_type := some "image/png", filename := "x.png", bytes := none }

def c9BadEvent : DiscordMessage :=
  { c9Event with attachments := [c9BadAttachment] }

/-- The store state carried by the exception when fingerprinting
`c9BadEvent` on the empty store fails: key materialised, nothing appended. -/
def c9ErrAfter : Store :=
  { data := Function.update (fun _ => []) (1, 7) [], keys := insert (1, 7) ∅ }

/-! ### Helper lemmas about the store operations -/

theorem Store.eq_of_fields {s1 s2 : Store} (hd : s1.data = s2.data)
    (hk : s1.keys = s2.keys) : s1 = s2 := by
  cases s1
  cases s2
  simp only [Store.mk.injEq]
  exact ⟨hd, hk⟩

theorem keys_defaultGet (s : Store) (k : Nat × Nat) :
    ((defaultGet s k).2).keys = insert k s.keys := by
  unfold defaultGet
  split
  · rename_i hk
    simp [Finset.insert_eq_self.mpr hk]
  · rfl

theorem fst_defaultGet (s : Store) (k : Nat × Nat) :
    (defaultGet s k).1 = s.view k := by
  unfold defaultGet Store.view
  split
  · rename_i hk
    simp [hk]
  · rename_i hk
    simp [hk]

theorem view_defaultGet (s : Store) (k k' : Nat × Nat) :
    ((defaultGet s k).2).view k' = s.view k' := by
  unfold defaultGet Store.view
  split
  · rfl
  · rename_i hk
    by_cases h : k' = k
    · subst h
      simp [hk, Function.update_same]
    · simp [Finset.mem_insert, h, Function.update_noteq h]

theorem data_mem_view {s : Store} {k : Nat × Nat} (hk : k ∈ s.keys) :
    s.data k = s.view k := by
  unfold Store.view
  simp [hk]

theorem keys_clearMessages (s : Store) (g a : Nat) :
    (clearMessages s g a).keys = insert (g, a) s.keys := by
  unfold clearMessages
  exact keys_defaultGet s (g, a)

theorem view_clearMessages (s : Store) (g a : Nat) (k' : Nat × Nat) :
    (clearMessages s g a).view k' =
      if k' = (g, a) then [] else s.view k' := by
  unfold clearMessages Store.view
  by_cases h : k' = (g, a)
  · subst h
    simp [keys_defaultGet, Function.update_same]
  · simp only [if_neg h]
    have hmem : (k' ∈ (defaultGet s (g, a)).2.keys) = (k' ∈ insert ((g, a)) s.keys) := by
      rw [keys_defaultGet]
    have hview := view_defaultGet s (g, a) k'
    unfold Store.view at hview
    simp only [Function.update_noteq h]
    exact hview

theorem view_removeMessage (s : Store) (g a : Nat) (k' : Nat × Nat) :
    (removeMessage s g a).view k' =
      if k' = (g, a) then
        (if MAX_MESSAGE_NUM < (s.view (g, a)).length
         then (s.view (g, a)).tail else s.view (g, a))
      else s.view k' := by
  simp only [removeMessage]
  rw [fst_defaultGet]
  by_cases h : k' = (g, a)
  · subst h
    split
    · rename_i hlen
      unfold Store.view
      simp [keys_defaultGet, Function.update_same, hlen]
    · rename_i hlen
      simp only [if_pos rfl, if_neg hlen]
      exact view_defaultGet s (g, a) (g, a)
  · simp only [if_neg h]
    split
    · unfold Store.view
      have hview := view_defaultGet s (g, a) k'
      unfold Store.view at hview
      simp only [Function.update_noteq h]
      exact hview
    · exact view_defaultGet s (g, a) k'

theorem view_update_ne (t : Store) (k k' : Nat × Nat) (w : List Message)
    (h : k' ≠ k) :
    (Store.mk (Function.update t.data k w) t.keys).view k' = t.view k' := by
  unfold Store.view
  simp [Function.update_noteq h]

theorem view_update_self_mem (t : Store) (k : Nat × Nat) (w : List Message)
    (hk : k ∈ t.keys) :
    (Store.mk (Function.update t.data k w) t.keys).view k = w := by
  unfold Store.view
  simp [hk, Function.update_same]

theorem keys_removeMessage (s : Store) (g a : Nat) :
    (removeMessage s g a).keys = insert (g, a) s.keys := by
  simp only [removeMessage]
  split
  · exact keys_defaultGet s (g, a)
  · exact keys_defaultGet s (g, a)

theorem addMessage_ok_of (hashFn : List Nat → Nat) (s : Store)
    (m : DiscordMessage) (g : Nat) (fm : Message) (hg : m.guild = some g)
    (hfm : from_discord_message hashFn m = Except.ok fm) :
    addMessage hashFn s m =
      Except.ok (removeMessage
        (Store.mk
          (Function.update ((defaultGet s (g, m.author_id)).2).data
            (g, m.author_id) ((defaultGet s (g, m.author_id)).1 ++ [fm]))
          ((defaultGet s (g, m.author_id)).2).keys)
        g m.author_id) := by
  simp only [addMessage, hg, hfm]

theorem addMessage_ok_view (hashFn : List Nat → Nat) (s : Store)
    (m : DiscordMessage) (g : Nat) (fm : Message) (s' : Store)
    (hg : m.guild = some g)
    (hfm : from_discord_message hashFn m = Except.ok fm)
    (h : addMessage hashFn s m = Except.ok s') :
    (∀ k', k' ≠ (g, m.author_id) → s'.view k' = s.view k')
    ∧ s'.view (g, m.author_id) =
        (if MAX_MESSAGE_NUM < (s.view (g, m.author_id)).length + 1
         then (s.view (g, m.author_id) ++ [fm]).tail
         else s.view (g, m.author_id) ++ [fm])
    ∧ (g, m.author_id) ∈ s'.keys := by
  rw [addMessage_ok_of hashFn s m g fm hg hfm] at h
  have hs' := Except.ok.inj h
  subst hs'
  set mid : Store := Store.mk
    (Function.update ((defaultGet s (g, m.author_id)).2).data
      (g, m.author_id) ((defaultGet s (g, m.author_id)).1 ++ [fm]))
    ((defaultGet s (g, m.author_id)).2).keys with hmid
  have hmem : (g, m.author_id) ∈ mid.keys := by
    rw [hmid]
    show (g, m.author_id) ∈ ((defaultGet s (g, m.author_id)).2).keys
    rw [keys_defaultGet]
    exact Finset.mem_insert_self _ _
  have hmidk : mid.view (g, m.author_id) = s.view (g, m.author_id) ++ [fm] := by
    rw [hmid]
    rw [view_update_self_mem _ _ _ (by rw [keys_defaultGet]; exact Finset.mem_insert_self _ _)]
    rw [fst_defaultGet]
  have hmidne : ∀ k', k' ≠ (g, m.author_id) → mid.view k' = s.view k' := by
    intro k' hk'
    rw [hmid, view_update_ne _ _ _ _ hk']
    exact view_defaultGet s (g, m.author_id) k'
  refine ⟨?_, ?_, ?_⟩
  · intro k' hk'
    rw [view_removeMessage, if_neg hk']
    exact hmidne k' hk'
  · rw [view_removeMessage, if_pos rfl, hmidk]
    simp only [List.length_append, List.length_singleton]
  · rw [keys_removeMessage]
    exact Finset.mem_insert_self _ _

theorem addMessage_error_view (hashFn : List Nat → Nat) (s : Store)
    (m : DiscordMessage) (s' : Store)
    (h : addMessage hashFn s m = Except.error s') :
    ∀ k', s'.view k' = s.view k' := by
  unfold addMessage at h
  cases hg : m.guild with
  | none =>
      rw [hg] at h
      exact absurd h (by simp)
  | some g =>
      rw [hg] at h
      cases hfm : from_discord_message hashFn m with
      | error e =>
          rw [hfm] at h
          simp only [Except.error.injEq] at h
          subst h
          exact fun k' => view_defaultGet s (g, m.author_id) k'
      | ok fm =>
          rw [hfm] at h
          exact absurd h (by simp)

theorem getScamMessages_none (s : Store) (m : DiscordMessage)
    (h : m.guild = none) : getScamMessages s m = ([], s) := by
  simp [getScamMessages, h]

theorem getScamMessages_fst_some (s : Store) (m : DiscordMessage) (g : Nat)
    (h : m.guild = some g) :
    (getScamMessages s m).1 = s.view (g, m.author_id) := by
  simp only [getScamMessages, h]
  exact fst_defaultGet s (g, m.author_id)

theorem getScamMessages_snd_some (s : Store) (m : DiscordMessage) (g : Nat)
    (h : m.guild = some g) :
    (getScamMessages s m).2 = (defaultGet s (g, m.author_id)).2 := by
  simp [getScamMessages, h]

theorem getScamMessages_snd_view (s : Store) (m : DiscordMessage)
    (k' : Nat × Nat) : ((getScamMessages s m).2).view k' = s.view k' := by
  cases hg : m.guild with
  | none => simp [getScamMessages, hg]
  | some g =>
      rw [getScamMessages_snd_some s m g hg]
      exact view_defaultGet s (g, m.author_id) k'

theorem isScam_snd (s : Store) (m : DiscordMessage) :
    (isScam s m).2 = (getScamMessages s m).2 := by
  simp only [isScam]
  split
  · rfl
  · rfl

theorem isScam_fst_short (s : Store) (m : DiscordMessage)
    (h : (getScamMessages s m).1.length < MAX_MESSAGE_NUM) :
    (isScam s m).1 = false := by
  simp only [isScam, if_pos h]

theorem isScam_fst_long (s : Store) (m : DiscordMessage)
    (h : ¬ (getScamMessages s m).1.length < MAX_MESSAGE_NUM) :
    (isScam s m).1 =
      (all_different ((getScamMessages s m).1.map Message.channel_id)
        && ((((getScamMessages s m).1.all fun msg => contains_url msg.content)
              && all_same strFalsy ((getScamMessages s m).1.map Message.content))
            || all_same setFalsy ((getScamMessages s m).1.map Message.image_hashes))) := by
  simp only [isScam, if_neg h]

/-! ### Helper lemmas about the list predicates -/

theorem all_different_eq_nodup {α : Type} [DecidableEq α] (l : List α) :
    all_different l = decide l.Nodup := by
  match l with
  | [] => simp [all_different]
  | [x] => simp [all_different]
  | x :: y :: t =>
      show decide ((x :: y :: t).dedup.length = (x :: y :: t).length) = _
      rw [decide_eq_decide]
      constructor
      · intro h
        have hsub := List.dedup_sublist (x :: y :: t)
        have heq := hsub.eq_of_length h
        rw [← heq]
        exact List.nodup_dedup _
      · intro h
        rw [List.dedup_eq_self.mpr h]

theorem all_same_cons2 {α : Type} [DecidableEq α] (falsy : α → Bool)
    (x y : α) (t : List α) :
    all_same falsy (x :: y :: t) =
      (!falsy x && (x :: y :: t).all fun z => decide (z = x)) := by
  show (if falsy x then false
    else (x :: y :: t).all fun z => decide (z = x)) = _
  by_cases h : falsy x
  · simp [h]
  · simp [h]

theorem all_same_map_eq {β : Type} [DecidableEq β] (falsy : β → Bool)
    (f : Message → β) (msgs : List Message) (h : 2 ≤ msgs.length) :
    all_same falsy (msgs.map f) =
      decide ((∀ m1 ∈ msgs, ∀ m2 ∈ msgs, f m1 = f m2)
        ∧ ∀ m ∈ msgs, falsy (f m) = false) := by
  match msgs with
  | [] => simp at h
  | [x] => simp at h
  | a :: b :: t =>
      have hcons : all_same falsy ((a :: b :: t).map f) =
          (!falsy (f a) && ((a :: b :: t).map f).all fun z => decide (z = f a)) :=
        all_same_cons2 falsy (f a) (f b) (t.map f)
      rw [hcons]
      apply Bool.eq_iff_iff.mpr
      simp only [Bool.and_eq_true, Bool.not_eq_true', List.all_eq_true,
        decide_eq_true_eq, List.mem_map, decide_eq_true_eq, forall_exists_index,
        and_imp]
      constructor
      · rintro ⟨hfa, hall⟩
        constructor
        · intro m1 hm1 m2 hm2
          rw [hall (f m1) m1 hm1 rfl, hall (f m2) m2 hm2 rfl]
        · intro m hm
          rw [hall (f m) m hm rfl]
          exact hfa
      · rintro ⟨hpair, hfalse⟩
        constructor
        · exact hfalse a (by simp)
        · intro z m hm hz
          rw [← hz]
          exact hpair m hm a (by simp)

theorem collectHashes_error_iff (hashFn : List Nat → Nat)
    (atts : List Attachment) :
    collectHashes hashFn atts = Except.error ()
      ↔ ∃ a ∈ atts, qualifies a = true ∧ a.bytes = none := by
  induction atts with
  | nil => simp [collectHashes]
  | cons a rest ih =>
      by_cases hq : qualifies a = true
      · cases hb : a.bytes with
        | none =>
            simp only [collectHashes, if_pos hq, hb]
            simp [hq, hb]
        | some bs =>
            cases hc : collectHashes hashFn rest with
            | error e =>
                cases e
                simp only [collectHashes, if_pos hq, hb, hc]
                simp only [List.mem_cons]
                constructor
                · intro _
                  obtain ⟨x, hx, hxq, hxb⟩ := ih.mp hc
                  exact ⟨x, Or.inr hx, hxq, hxb⟩
                · intro _
                  trivial
            | ok hs =>
                simp only [collectHashes, if_pos hq, hb, hc]
                simp only [List.mem_cons]
                constructor
                · intro hcontr
                  exact absurd hcontr (by simp)
                · rintro ⟨x, hx, hxq, hxb⟩
                  cases hx with
                  | inl hxa =>
                      subst hxa
                      rw [hb] at hxb
                      exact absurd hxb (by simp)
                  | inr hxr =>
                      have := ih.mpr ⟨x, hxr, hxq, hxb⟩
                      rw [hc] at this
                      exact absurd this (by simp)
      · simp only [collectHashes, if_neg hq]
        rw [ih]
        simp only [List.mem_cons]
        constructor
        · rintro ⟨x, hx, hxq, hxb⟩
          exact ⟨x, Or.inr hx, hxq, hxb⟩
        · rintro ⟨x, hx, hxq, hxb⟩
          cases hx with
          | inl hxa =>
              subst hxa
              exact absurd hxq hq
          | inr hxr =>
              exact ⟨x, hxr, hxq, hxb⟩

/-! ### Claim theorems -/

/-- C7: `all_same` returns false on the empty list and on every one-element
list; false on every list of at least two elements whose shared value is
falsy (in particular `["", ""]`); and true on every list of at least two
pairwise-equal non-falsy values. -/
theorem c7_all_same_edge_cases :
    (∀ (α : Type) [inst : DecidableEq α] (falsy : α → Bool),
        all_same falsy ([] : List α) = false)
    ∧ (∀ (α : Type) [inst : DecidableEq α] (falsy : α → Bool) (x : α),
        all_same falsy [x] = false)
    ∧ (∀ (α : Type) [inst : DecidableEq α] (falsy : α → Bool) (l : List α)
        (x : α), 2 ≤ l.length → (∀ y ∈ l, y = x) → falsy x = true →
        all_same falsy l = false)
    ∧ (∀ (α : Type) [inst : DecidableEq α] (falsy : α → Bool) (l : List α)
        (x : α), 2 ≤ l.length → (∀ y ∈ l, y = x) → falsy x = false →
        all_same falsy l = true)
    ∧ all_same strFalsy ["", ""] = false := by
  refine ⟨?_, ?_, ?_, ?_, ?_⟩
  · intro α inst falsy
    rfl
  · intro α inst falsy x
    rfl
  · intro α inst falsy l x hlen hall hx
    match l with
    | [] => simp at hlen
    | [y] => simp at hlen
    | a :: b :: t =>
        have ha : a = x := hall a (by simp)
        rw [all_same_cons2, ha, hx]
        rfl
  · intro α inst falsy l x hlen hall hx
    match l with
    | [] => simp at hlen
    | [y] => simp at hlen
    | a :: b :: t =>
        have ha : a = x := hall a (by simp)
        have hfa : falsy a = false := by rw [ha]; exact hx
        rw [all_same_cons2, hfa]
        simp only [Bool.not_false, Bool.true_and, List.all_eq_true,
          decide_eq_true_eq]
        intro z hz
        rw [hall z hz, ha]
  · rfl

/-- C7 witness: concrete evaluations of the edge cases. -/
theorem c7_all_same_edge_cases_witness :
    all_same strFalsy ([] : List String) = false
    ∧ all_same strFalsy ["hi"] = false
    ∧ all_same strFalsy ["", ""] = false
    ∧ all_same strFalsy ["a", "a", "a"] = true :=
  ⟨c7_all_same_edge_cases.1 String strFalsy,
   c7_all_same_edge_cases.2.1 String strFalsy "hi",
   c7_all_same_edge_cases.2.2.1 String strFalsy ["", ""] "" (by decide)
     (by decide) (by decide),
   c7_all_same_edge_cases.2.2.2.1 String strFalsy ["a", "a", "a"] "a"
     (by decide) (by decide) (by decide)⟩

/-- C8: `all_different` returns true on the empty list and on every
one-element list, and false on every list containing a duplicate. -/
theorem c8_all_different_edge_cases :
    (∀ (α : Type) [inst : DecidableEq α], all_different ([] : List α) = true)
    ∧ (∀ (α : Type) [inst : DecidableEq α] (x : α), all_different [x] = true)
    ∧ (∀ (α : Type) [inst : DecidableEq α] (l : List α), ¬ l.Nodup →
        all_different l = false) := by
  refine ⟨?_, ?_, ?_⟩
  · intro α inst
    rfl
  · intro α inst x
    rfl
  · intro α inst l h
    rw [all_different_eq_nodup]
    exact decide_eq_false h

/-- C8 witness: concrete evaluations, including the duplicated list
`[a, a, b]`. -/
theorem c8_all_different_edge_cases_witness :
    all_different ([] : List Nat) = true
    ∧ all_different [(5 : Nat)] = true
    ∧ all_different [1, 1, 2] = false :=
  ⟨c8_all_different_edge_cases.1 Nat,
   c8_all_different_edge_cases.2.1 Nat 5,
   c8_all_different_edge_cases.2.2 Nat [1, 1, 2] (by decide)⟩

/-- C4: a window with fewer than `MAX_MESSAGE_NUM = 3` messages is always
classified not-spam; `is_scam` returns before computing any pattern
predicate. -/
theorem c4_short_window_not_spam (s : Store) (m : DiscordMessage)
    (h : (getScamMessages s m).1.length < MAX_MESSAGE_NUM) :
    (isScam s m).1 = false :=
  isScam_fst_short s m h

/-- C4 witness: a fresh author's window is empty, hence not spam. -/
theorem c4_short_window_not_spam_witness :
    (isScam Store.empty c4Event).1 = false :=
  c4_short_window_not_spam Store.empty c4Event (by decide)

/-- C10: `clear_messages` is total (clearing an unseen key leaves that key
mapped to an empty window rather than failing) and idempotent (clearing
twice equals clearing once, as store states). -/
theorem c10_clear_total_idempotent (s : Store) (g a : Nat) :
    (clearMessages s g a).view (g, a) = []
    ∧ (g, a) ∈ (clearMessages s g a).keys
    ∧ clearMessages (clearMessages s g a) g a = clearMessages s g a := by
  refine ⟨?_, ?_, ?_⟩
  · rw [view_clearMessages, if_pos rfl]
  · rw [keys_clearMessages]
    exact Finset.mem_insert_self _ _
  · apply Store.eq_of_fields
    · show (clearMessages (clearMessages s g a) g a).data
        = (clearMessages s g a).data
      unfold clearMessages defaultGet
      by_cases hk : (g, a) ∈ s.keys
      · simp only [if_pos hk]
        simp [Finset.mem_insert_self, Function.update_idem,
          Function.update_same]
      · simp only [if_neg hk]
        simp [Finset.mem_insert_self, Function.update_idem,
          Function.update_same]
    · show (clearMessages (clearMessages s g a) g a).keys
        = (clearMessages s g a).keys
      rw [keys_clearMessages, keys_clearMessages]
      exact Finset.insert_idem _ _

/-- C6, amended: classification (`is_scam`, including its `get_scam_messages`
read) never changes any author's window, and when the queried key is already
present in the backing dict — or the message is a DM — the store is exactly
unchanged.  However, querying a previously-unseen key materialises it in the
`defaultdict` with an empty window, so the mapping itself can gain a key. -/
theorem c6_classifier_frame_amended (s : Store) (m : DiscordMessage) :
    (∀ k, ((isScam s m).2).view k = s.view k)
    ∧ (∀ g, m.guild = some g → (g, m.author_id) ∈ s.keys → (isScam s m).2 = s)
    ∧ (m.guild = none → (isScam s m).2 = s) := by
  refine ⟨?_, ?_, ?_⟩
  · intro k
    rw [isScam_snd]
    exact getScamMessages_snd_view s m k
  · intro g hg hmem
    rw [isScam_snd, getScamMessages_snd_some s m g hg]
    unfold defaultGet
    simp [hmem]
  · intro h
    rw [isScam_snd, getScamMessages_none s m h]

/-- C6 counterexample: running `is_scam` for a never-seen author on the empty
store mutates the mapping — the defaultdict lookup inserts the key, so the
resulting store differs from the original. -/
theorem c6_classifier_frame_counterexample :
    (isScam Store.empty c6Event).2 ≠ Store.empty := by
  intro h
  have hk := congrArg Store.keys h
  rw [isScam_snd, getScamMessages_snd_some Store.empty c6Event 1 rfl,
    keys_defaultGet] at hk
  simp only [Store.empty] at hk
  exact Finset.insert_ne_empty _ _ hk

/-- C6 witness: with the key already materialised, classification leaves the
store exactly unchanged. -/
theorem c6_classifier_frame_witness :
    ((isScam c6Store c6Event).2).view (1, 1) = c6Store.view (1, 1)
    ∧ (isScam c6Store c6Event).2 = c6Store :=
  ⟨(c6_classifier_frame_amended c6Store c6Event).1 (1, 1),
   (c6_classifier_frame_amended c6Store c6Event).2.1 1 rfl (by decide)⟩

/-- C2: for windows of length at least `MAX_MESSAGE_NUM = 3`, the classifier
decision equals `different_channels AND ((same_content AND all_contain_url)
OR same_images)` with the spec-side predicates — the cross-channel condition
gates both disjuncts equally. -/
theorem c2_scam_rule_grouping (s : Store) (m : DiscordMessage)
    (h : MAX_MESSAGE_NUM ≤ (getScamMessages s m).1.length) :
    (isScam s m).1 =
      (different_channels_spec (getScamMessages s m).1
        && ((same_content_spec (getScamMessages s m).1
              && all_contain_url_spec (getScamMessages s m).1)
            || same_images_spec (getScamMessages s m).1)) := by
  have hlt : ¬ (getScamMessages s m).1.length < MAX_MESSAGE_NUM := not_lt.mpr h
  have h2 : 2 ≤ (getScamMessages s m).1.length := le_trans (by decide) h
  have hstr : ∀ x : String, strFalsy x = false ↔ x ≠ "" := by
    intro x
    unfold strFalsy
    rw [Bool.eq_false_iff]
    constructor
    · intro hne hc
      exact hne ((String.isEmpty_iff _).mpr hc)
    · intro hne hc
      exact hne ((String.isEmpty_iff _).mp hc)
  have hset : ∀ x : Finset Nat, setFalsy x = false ↔ x ≠ ∅ := by
    intro x
    unfold setFalsy
    exact decide_eq_false_iff_not
  have hcontent :
      all_same strFalsy ((getScamMessages s m).1.map Message.content)
        = same_content_spec (getScamMessages s m).1 := by
    rw [all_same_map_eq strFalsy Message.content _ h2]
    unfold same_content_spec
    rw [decide_eq_decide]
    simp only [hstr]
  have himages :
      all_same setFalsy ((getScamMessages s m).1.map Message.image_hashes)
        = same_images_spec (getScamMessages s m).1 := by
    rw [all_same_map_eq setFalsy Message.image_hashes _ h2]
    unfold same_images_spec
    rw [decide_eq_decide]
    simp only [hset]
  rw [isScam_fst_long s m hlt, hcontent, himages, all_different_eq_nodup]
  unfold different_channels_spec all_contain_url_spec
  rw [Bool.and_comm ((getScamMessages s m).1.all fun msg => contains_url msg.content)
    (same_content_spec (getScamMessages s m).1)]

/-- C2 witness: three URL-bearing identical messages across three distinct
channels are classified spam, matching the spec-side formula. -/
theorem c2_scam_rule_grouping_witness :
    (isScam c2Store c2Event).1 =
      (different_channels_spec (getScamMessages c2Store c2Event).1
        && ((same_content_spec (getScamMessages c2Store c2Event).1
              && all_contain_url_spec (getScamMessages c2Store c2Event).1)
            || same_images_spec (getScamMessages c2Store c2Event).1)) :=
  c2_scam_rule_grouping c2Store c2Event (by decide)

/-- C1 counterexample: a message with one fetchable and one unfetchable
qualifying attachment.  The claim says the failing attachment's hash is
omitted and fingerprinting still completes; instead `from_discord_message`
propagates the fetch exception and produces no `FingerprintedMessage`. -/
theorem c1_attachment_fetch_failure_counterexample :
    from_discord_message zeroHash c1Event = Except.error () := by rfl

/-- C1, amended: a fetch failure for any qualifying attachment aborts
fingerprinting of the whole message (the exception from
`extract_image_hash` propagates — there is no per-attachment recovery);
only when every qualifying attachment's fetch succeeds does fingerprinting
complete, with the message's text content intact. -/
theorem c1_attachment_fetch_failure_aborts (hashFn : List Nat → Nat)
    (m : DiscordMessage) :
    ((∃ a ∈ m.attachments, qualifies a = true ∧ a.bytes = none) →
      from_discord_message hashFn m = Except.error ())
    ∧ ((∀ a ∈ m.attachments, qualifies a = true → a.bytes ≠ none) →
      ∃ fm, from_discord_message hashFn m = Except.ok fm
        ∧ fm.id = m.id ∧ fm.channel_id = m.channel_id
        ∧ fm.content = m.content) := by
  constructor
  · intro hex
    unfold from_discord_message
    rw [(collectHashes_error_iff hashFn m.attachments).mpr hex]
  · intro hall
    have hne : ¬ collectHashes hashFn m.attachments = Except.error () := by
      rw [collectHashes_error_iff]
      rintro ⟨a, ha, hq, hb⟩
      exact hall a ha hq hb
    cases hc : collectHashes hashFn m.attachments with
    | error e =>
        cases e
        exact absurd hc hne
    | ok hs =>
        refine ⟨Message.mk m.id m.channel_id m.content hs.toFinset,
          ?_, rfl, rfl, rfl⟩
        unfold from_discord_message
        rw [hc]

/-- C1 witness: the abort on `c1Event` (which has a failing fetch) and the
successful completion on `c1OkEvent` (all fetches succeed). -/
theorem c1_attachment_fetch_failure_witness :
    from_discord_message zeroHash c1Event = Except.error ()
    ∧ ∃ fm, from_discord_message zeroHash c1OkEvent = Except.ok fm
        ∧ fm.id = c1OkEvent.id ∧ fm.channel_id = c1OkEvent.channel_id
        ∧ fm.content = c1OkEvent.content :=
  ⟨(c1_attachment_fetch_failure_aborts zeroHash c1Event).1 (by decide),
   (c1_attachment_fetch_failure_aborts zeroHash c1OkEvent).2 (by decide)⟩

/-- C9: appending under key k1 (`add_message`, whether it completes or the
fingerprint fetch raises) and clearing key k1 (`clear_messages`) leave the
window of every other key k2 unchanged. -/
theorem c9_key_isolation (s : Store) (k1 k2 : Nat × Nat)
    (hashFn : List Nat → Nat) (m : DiscordMessage) (sOk sErr : Store)
    (hne : k2 ≠ k1) (hg : m.guild = some k1.1) (ha : m.author_id = k1.2) :
    (addMessage hashFn s m = Except.ok sOk → sOk.view k2 = s.view k2)
    ∧ (addMessage hashFn s m = Except.error sErr → sErr.view k2 = s.view k2)
    ∧ (clearMessages s k1.1 k1.2).view k2 = s.view k2 := by
  have hne' : k2 ≠ (k1.1, m.author_id) := by
    rw [ha, Prod.mk.eta]
    exact hne
  refine ⟨?_, ?_, ?_⟩
  · intro h
    cases hfm : from_discord_message hashFn m with
    | error e =>
        simp only [addMessage, hg, hfm] at h
        exact Except.noConfusion h
    | ok fm =>
        exact (addMessage_ok_view hashFn s m k1.1 fm sOk hg hfm h).1 k2 hne'
  · intro h
    exact addMessage_error_view hashFn s m sErr h k2
  · rw [view_clearMessages]
    rw [if_neg (fun hc => hne (hc.trans Prod.mk.eta))]

/-- C9 witness: a successful append, an aborted append, and a clear on key
(1, 7) all leave the window of key (2, 9) unchanged. -/
theorem c9_key_isolation_witness :
    (c9After.view (2, 9) = Store.empty.view (2, 9))
    ∧ (c9ErrAfter.view (2, 9) = Store.empty.view (2, 9))
    ∧ (clearMessages Store.empty 1 7).view (2, 9) = Store.empty.view (2, 9) :=
  ⟨(c9_key_isolation Store.empty (1, 7) (2, 9) zeroHash c9Event c9After
      c9ErrAfter (by decide) rfl rfl).1 (by rfl),
   (c9_key_isolation Store.empty (1, 7) (2, 9) zeroHash c9BadEvent c9After
      c9ErrAfter (by decide) rfl rfl).2.1 (by rfl),
   (c9_key_isolation Store.empty (1, 7) (2, 9) zeroHash c9Event c9After
      c9ErrAfter (by decide) rfl rfl).2.2⟩

/-- C3: over all reachable store states, every window's length stays at most
`MAX_MESSAGE_NUM = 3`; and appending to a window already at capacity yields
a window of exactly 3 messages equal to the old window minus its oldest
(first) entry, with the new message at the end — strict FIFO eviction. -/
theorem c3_window_bound_and_fifo :
    (∀ s, Reachable s → ∀ k, (s.view k).length ≤ MAX_MESSAGE_NUM)
    ∧ (∀ (s : Store) (k : Nat × Nat) (hashFn : List Nat → Nat)
        (m : DiscordMessage) (fm : Message),
        (s.view k).length = MAX_MESSAGE_NUM → m.guild = some k.1 →
        m.author_id = k.2 → from_discord_message hashFn m = Except.ok fm →
        ∃ s', addMessage hashFn s m = Except.ok s'
          ∧ s'.view k = (s.view k).tail ++ [fm]
          ∧ (s'.view k).length = MAX_MESSAGE_NUM) := by
  constructor
  · intro s hs
    induction hs with
    | init =>
        intro k
        simp [Store.empty, Store.view]
    | addOk hashFn s m s' hr h ih =>
        intro k
        cases hg : m.guild with
        | none =>
            simp only [addMessage, hg] at h
            have hss := Except.ok.inj h
            subst hss
            exact ih k
        | some g =>
            cases hfm : from_discord_message hashFn m with
            | error e =>
                simp only [addMessage, hg, hfm] at h
                exact Except.noConfusion h
            | ok fm =>
                have hv := addMessage_ok_view hashFn s m g fm s' hg hfm h
                by_cases hk : k = (g, m.author_id)
                · subst hk
                  rw [hv.2.1]
                  split
                  · rw [List.length_tail, List.length_append,
                      List.length_singleton]
                    have := ih (g, m.author_id)
                    omega
                  · rename_i hcond
                    rw [List.length_append, List.length_singleton]
                    omega
                · rw [hv.1 k hk]
                  exact ih k
    | addErr hashFn s m s' hr h ih =>
        intro k
        rw [addMessage_error_view hashFn s m s' h k]
        exact ih k
    | clear s g a hr ih =>
        intro k
        rw [view_clearMessages]
        split
        · simp
        · exact ih k
    | reads s m hr ih =>
        intro k
        rw [getScamMessages_snd_view]
        exact ih k
    | classify s m hr ih =>
        intro k
        rw [isScam_snd, getScamMessages_snd_view]
        exact ih k
  · intro s k hashFn m fm hlen hg ha hfm
    have hk : (k.1, m.author_id) = k := by rw [ha]
    obtain ⟨a, b, c, habc⟩ := List.length_eq_three.mp hlen
    have hadd := addMessage_ok_of hashFn s m k.1 fm hg hfm
    have hv := addMessage_ok_view hashFn s m k.1 fm _ hg hfm hadd
    rw [hk] at hadd hv
    refine ⟨_, hadd, ?_, ?_⟩
    · rw [hv.2.1, habc]
      rfl
    · rw [hv.2.1, habc]
      rfl

/-- C3 witness: the empty store is reachable with all windows within bound,
and appending to the concrete full window `[c3Msg1, c3Msg2, c3Msg3]` evicts
exactly `c3Msg1` and appends the new fingerprint at the end. -/
theorem c3_window_bound_and_fifo_witness :
    (Store.empty.view (0, 0)).length ≤ MAX_MESSAGE_NUM
    ∧ ∃ s', addMessage zeroHash c3Store c3Event = Except.ok s'
        ∧ s'.view (1, 7) = (c3Store.view (1, 7)).tail ++ [c3New]
        ∧ (s'.view (1, 7)).length = MAX_MESSAGE_NUM :=
  ⟨c3_window_bound_and_fifo.1 Store.empty Reachable.init (0, 0),
   c3_window_bound_and_fifo.2 c3Store (1, 7) zeroHash c3Event c3New
     (by decide) rfl rfl (by rfl)⟩

/-- C5 counterexample: a spam-classified event whose deletions fail to
resolve their channel (`fetch_channel` raising `NotFound`/`Forbidden`, which
sits outside the `contextlib.suppress` block).  `on_message` aborts before
reaching `clear_messages`: the window still holds the full spam evidence, so
processing does not end with the window cleared. -/
theorem c5_spam_clears_window_counterexample :
    (isScam c5Mid c5Event).1 = true
    ∧ onMessage zeroHash c5Store c5Event (fun _ => DeleteOutcome.resolveFailed)
        TimeoutOutcome.success NotifyOutcome.sent = Except.error c5Mid
    ∧ c5Mid.view (1, 7) = [c5Msg1, c5Msg2, c5New] :=
  ⟨by decide, by rfl, by decide⟩

/-- C5, amended: when every deletion resolves its channel (so the only
deletion failures are `NotFound`/`Forbidden` from `message.delete()`, which
are suppressed, or skipped channel kinds) and, if the author is a member and
the timeout succeeds, the notification fetch/send does not raise, then
processing of a spam-classified event ends with the author's window cleared
— regardless of suppressed deletion failures, of the suspension failing with
a caught error, or of the author not being a member — and the author's next
single message is evaluated against a one-element window and classified
not-spam.  An uncaught channel-resolution or notification failure instead
aborts `on_message` before `clear_messages`. -/
theorem c5_spam_clears_window_unless_uncaught
    (hashFn hashFn2 : List Nat → Nat) (s : Store) (m m2 : DiscordMessage)
    (g : Nat) (deleteOutcomes : Nat → DeleteOutcome)
    (timeoutRes : TimeoutOutcome) (notifyRes : NotifyOutcome)
    (s1 : Store) (fm2 : Message)
    (hg : m.guild = some g) (hbot : m.author_bot = false)
    (hwh : m.webhook_id = none)
    (hadd : addMessage hashFn s m = Except.ok s1)
    (hspam : (isScam s1 m).1 = true)
    (hdel : ∀ i, i < (getScamMessages (isScam s1 m).2 m).1.length →
      deleteOutcomes i ≠ DeleteOutcome.resolveFailed)
    (hnotify : m.author_is_member = true →
      timeoutRes = TimeoutOutcome.success → notifyRes ≠ NotifyOutcome.failed)
    (hg2 : m2.guild = some g) (ha2 : m2.author_id = m.author_id)
    (hfm2 : from_discord_message hashFn2 m2 = Except.ok fm2) :
    ∃ s2, onMessage hashFn s m deleteOutcomes timeoutRes notifyRes
        = Except.ok s2
      ∧ s2.view (g, m.author_id) = []
      ∧ ∃ s3, addMessage hashFn2 s2 m2 = Except.ok s3
          ∧ s3.view (g, m.author_id) = [fm2]
          ∧ (isScam s3 m2).1 = false := by
  have hany : ((List.range (getScamMessages (isScam s1 m).2 m).1.length).any
      (fun i => decide (deleteOutcomes i = DeleteOutcome.resolveFailed)))
      = false := by
    apply Bool.eq_false_iff.mpr
    intro hcontra
    rw [List.any_eq_true] at hcontra
    obtain ⟨i, hi, hp⟩ := hcontra
    rw [List.mem_range] at hi
    rw [decide_eq_true_eq] at hp
    exact hdel i hi hp
  have hrun : onMessage hashFn s m deleteOutcomes timeoutRes notifyRes =
      Except.ok (clearMessages (getScamMessages (isScam s1 m).2 m).2 g
        m.author_id) := by
    simp only [onMessage, hg, hadd, hspam, if_true]
    rw [if_neg (by simp [hbot, hwh])]
    rw [hany]
    simp only [Bool.false_eq_true, if_false]
    by_cases hmem : m.author_is_member = true
    · rw [if_pos hmem]
      cases timeoutRes with
      | caught => rfl
      | success =>
          cases notifyRes with
          | failed => exact absurd rfl (hnotify hmem rfl)
          | sent => rfl
          | skippedKind => rfl
    · rw [if_neg hmem]
  refine ⟨_, hrun, ?_, ?_⟩
  · rw [view_clearMessages, if_pos rfl]
  · set s2 : Store := clearMessages (getScamMessages (isScam s1 m).2 m).2 g
      m.author_id with hs2
    have hview2 : s2.view (g, m2.author_id) = [] := by
      rw [ha2, hs2, view_clearMessages, if_pos rfl]
    have hadd2 := addMessage_ok_of hashFn2 s2 m2 g fm2 hg2 hfm2
    have hv2 := addMessage_ok_view hashFn2 s2 m2 g fm2 _ hg2 hfm2 hadd2
    refine ⟨_, hadd2, ?_, ?_⟩
    · rw [← ha2, hv2.2.1, hview2]
      rfl
    · have hfst : (getScamMessages
          (removeMessage
            (Store.mk
              (Function.update ((defaultGet s2 (g, m2.author_id)).2).data
                (g, m2.author_id) ((defaultGet s2 (g, m2.author_id)).1 ++ [fm2]))
              ((defaultGet s2 (g, m2.author_id)).2).keys)
            g m2.author_id) m2).1.length < MAX_MESSAGE_NUM := by
        rw [getScamMessages_fst_some _ m2 g hg2, hv2.2.1, hview2]
        rw [if_neg (by decide)]
        simp [MAX_MESSAGE_NUM]
      exact isScam_fst_short _ m2 hfst

/-- C5 witness: a concrete spam event (three identical URL posts in three
channels) where one deletion's `delete()` call fails but is suppressed, the
others succeed, and the suspension fails with a caught error — the window is
still cleared, after which the next message sits alone in the window and is
classified not-spam. -/
theorem c5_spam_clears_window_witness :
    ∃ s2, onMessage zeroHash c5Store c5Event
        (fun i => if i = 0 then DeleteOutcome.deleteSuppressed
          else DeleteOutcome.deleted)
        TimeoutOutcome.caught NotifyOutcome.sent = Except.ok s2
      ∧ s2.view (1, 7) = []
      ∧ ∃ s3, addMessage zeroHash s2 c5Next = Except.ok s3
          ∧ s3.view (1, 7) = [c5NextFp]
          ∧ (isScam s3 c5Next).1 = false :=
  c5_spam_clears_window_unless_uncaught zeroHash zeroHash c5Store c5Event
    c5Next 1
    (fun i => if i = 0 then DeleteOutcome.deleteSuppressed
      else DeleteOutcome.deleted)
    TimeoutOutcome.caught NotifyOutcome.sent c5Mid c5NextFp rfl rfl rfl
    (by rfl) (by decide) (by decide) (by decide) rfl rfl (by rfl)

end NoScams
